import Mathlib

set_option maxRecDepth 8000

/-! Shallow embedding of the particle-image library: src/particle-image.js and
the options-based variant in src/unnamed/part_000.  JavaScript numbers are
modelled as rationals, strings as `String`, and `undefined` as `Option`.
The `Math.random` source, the Fisher-Yates shuffle and the values of
`Math.sin` / `Math.cos` are abstracted into oracle parameters, mirroring the
substitutable Random Source of the design. -/

/-- A point on the plane, `{x, y}` (PointObject of the source). -/
structure Point where
  x : ℚ
  y : ℚ
deriving DecidableEq

/-- A full particle property bag `{fill, opacity, radius}`; the recognized
keys are those of the configured default bag. -/
structure Properties where
  fill : String
  opacity : ℚ
  radius : ℚ
deriving DecidableEq

/-- A partial property bag, as passed to `updateTransitionData`; `none`
models an absent key, which the object-spread merge leaves unchanged. -/
structure PartialProperties where
  fill : Option String := none
  opacity : Option ℚ := none
  radius : Option ℚ := none
deriving DecidableEq

/-- The per-particle transition record `{fromPoint, fromProperties, toPoint,
toProperties}`. -/
structure TransitionData where
  fromPoint : Point
  fromProperties : Properties
  toPoint : Point
  toProperties : Properties
deriving DecidableEq

/-- A partial transition-data object (the argument of
`updateTransitionData`, and the Sample records the image sampler emits). -/
structure Sample where
  fromPoint : Option Point := none
  fromProperties : Option PartialProperties := none
  toPoint : Option Point := none
  toProperties : Option PartialProperties := none
deriving DecidableEq

/-- A particle of the pool.  `id` models JavaScript object identity (the
`includes` reference tests of `setParticleTransitions`); `spawnPoint`,
`spawnProperties` and `randFloat` are the values captured at construction. -/
structure Particle where
  id : ℕ
  point : Point
  properties : Properties
  spawnPoint : Point
  spawnProperties : Properties
  randFloat : ℚ
  transitionData : TransitionData
deriving DecidableEq

/-- getTransitionNumber: `fromNum + (toNum - fromNum) * completion`. -/
def getTransitionNumber (fromNum toNum completion : ℚ) : ℚ :=
  fromNum + (toNum - fromNum) * completion

/-- The booster weight computed inline in `applyMoveFunction` and
`applyPropertyFunction`: `1 - (Math.abs(.5 * completion) * 2)`.  The source
comment asserts it is 0 at completion 0 or 1 and 1 at completion .5. -/
def booster (completion : ℚ) : ℚ := 1 - |(1/2 : ℚ) * completion| * 2

/-- The booster as the specification words it: `1 - |1 - 2*completion|`,
zero at both endpoints and maximal at the midpoint.  Kept separate from
`booster` so the two can be compared. -/
def boosterSpec (completion : ℚ) : ℚ := 1 - |1 - 2 * completion|

/-- Value of a hexadecimal digit character, as `parseInt(_, 16)` reads it
(both cases accepted); non-digit characters yield 0, a case that every use
below guards away with `isHexColor`. -/
def hexDigitVal (ch : Char) : ℕ :=
  let n := ch.toNat
  if 48 ≤ n ∧ n ≤ 57 then n - 48
  else if 97 ≤ n ∧ n ≤ 102 then n - 87
  else if 65 ≤ n ∧ n ≤ 70 then n - 55
  else 0

/-- Whether a character matches `[0-9A-F]` case-insensitively. -/
def isHexDigitCharB (ch : Char) : Bool :=
  (48 ≤ ch.toNat && ch.toNat ≤ 57)
    || (97 ≤ ch.toNat && ch.toNat ≤ 102)
    || (65 ≤ ch.toNat && ch.toNat ≤ 70)

/-- The test `/^#[0-9A-F]{6}$/i.test(val)` of `getTransitionValue`. -/
def isHexColor (s : String) : Bool :=
  match s.data with
  | '#' :: rest => rest.length == 6 && rest.all isHexDigitCharB
  | _ => false

/-- `parseInt` of a two-character hexadecimal pair. -/
def parseHexPair (c1 c2 : Char) : ℕ := hexDigitVal c1 * 16 + hexDigitVal c2

/-- Digits of `n.toString(16)` (lowercase, no sign, no padding), via a
structural fuel so that concrete inputs evaluate in the kernel. -/
def natToHexDigitsAux : ℕ → ℕ → List Char
  | 0, _ => []
  | fuel + 1, n =>
      if n < 16 then [Nat.digitChar n]
      else natToHexDigitsAux fuel (n / 16) ++ [Nat.digitChar (n % 16)]

/-- Digits of `n.toString(16)` for a natural number. -/
def natToHexDigits (n : ℕ) : List Char := natToHexDigitsAux (n + 1) n

/-- The `hex` helper of `getTransitionColor` restricted to naturals:
`toString(16)` zero-padded to length 2 when a single digit comes out. -/
def hexPadN (n : ℕ) : String :=
  let s := String.mk (natToHexDigits n)
  if s.length = 1 then "0" ++ s else s

/-- The `hex` helper of `getTransitionColor` on an integer channel value;
negative values render with a leading minus sign as `toString(16)` does. -/
def hexStr (n : ℤ) : String :=
  if n < 0 then
    let s := "-" ++ String.mk (natToHexDigits (-n).toNat)
    if s.length = 1 then "0" ++ s else s
  else hexPadN n.toNat

/-- The three byte channels of a `#RRGGBB` string, read exactly as
`getTransitionColor` reads them: drop the leading `#`, then `parseInt` of
the three two-character substrings. -/
def colorChannels (s : String) : ℕ × ℕ × ℕ :=
  let l := s.data.drop 1
  (parseHexPair (l.getD 0 ' ') (l.getD 1 ' '),
   parseHexPair (l.getD 2 ' ') (l.getD 3 ' '),
   parseHexPair (l.getD 4 ' ') (l.getD 5 ' '))

/-- getTransitionColor: per channel, `Math.ceil(to*completion +
from*(1-completion))`, reassembled as `#` + three padded hex bytes. -/
def getTransitionColor (fromHex toHex : String) (completion : ℚ) : String :=
  let fc := colorChannels fromHex
  let tc := colorChannels toHex
  let r := Int.ceil ((tc.1 : ℚ) * completion + (fc.1 : ℚ) * (1 - completion))
  let g := Int.ceil ((tc.2.1 : ℚ) * completion + (fc.2.1 : ℚ) * (1 - completion))
  let b := Int.ceil ((tc.2.2 : ℚ) * completion + (fc.2.2 : ℚ) * (1 - completion))
  "#" ++ (hexStr r ++ (hexStr g ++ hexStr b))

/-- Canonical re-encoding of a `#RRGGBB` string: parse the three channels
and re-render them zero-padded lowercase.  This is the identity exactly on
the colors the library itself produces. -/
def normalizeHexColor (s : String) : String :=
  let c := colorChannels s
  "#" ++ (hexStr (c.1 : ℤ) ++ (hexStr (c.2.1 : ℤ) ++ hexStr (c.2.2 : ℤ)))

/-- The ceiling-rounded linear channel blend the specification describes. -/
def ceilBlend (fromVal toVal : ℕ) (completion : ℚ) : ℕ :=
  (Int.ceil ((toVal : ℚ) * completion + (fromVal : ℚ) * (1 - completion))).toNat

/-- rgbToHex: `#` + the three zero-padded hexadecimal components. -/
def rgbToHex (r g b : ℕ) : String :=
  "#" ++ (hexPadN r ++ (hexPadN g ++ hexPadN b))

/-- getTransitionValue specialised to the string-valued `fill` key: both
ends are defined strings, so the number and undefined branches of the
source dispatch are vacuous and the result is the color interpolation when
both ends are hex colors, otherwise the `to` value. -/
def getTransitionValueFill (fromFill toFill : String) (completion : ℚ) : String :=
  if isHexColor fromFill && isHexColor toFill then
    getTransitionColor fromFill toFill completion
  else toFill

/-- rotatePoint: rotate `pointXY` around `originXY`.  The sine and cosine of
the angle are passed in as values (`sinA`, `cosA`), standing for the
`Math.sin` / `Math.cos` results the source computes.  Note the source
mutates and returns its first argument; callers that keep using the
original binding observe the rotated coordinates. -/
def rotatePoint (pointXY originXY : Point) (sinA cosA : ℚ) : Point :=
  let px := pointXY.x - originXY.x
  let py := pointXY.y - originXY.y
  ⟨px * cosA - py * sinA + originXY.x, px * sinA + py * cosA + originXY.y⟩

/-- The `linear` move function: the straight-line `betweenPoint`. -/
def applyMoveFunctionLinear (fromPoint toPoint : Point) (completion : ℚ) : Point :=
  ⟨getTransitionNumber fromPoint.x toPoint.x completion,
   getTransitionNumber fromPoint.y toPoint.y completion⟩

/-- The `rotate` move function as the code actually runs: `rotatePoint`
mutates `betweenPoint` in place and returns the same object, so after the
call the name `betweenPoint` denotes the rotated point.  The final blend
therefore reads the rotated coordinates as its starting value. -/
def applyMoveFunctionRotate (sinC cosC : ℚ) (fromPoint toPoint spawnPoint : Point)
    (randFloat completion : ℚ) : Point :=
  let betweenPoint := applyMoveFunctionLinear fromPoint toPoint completion
  let rotPoint := rotatePoint betweenPoint toPoint sinC cosC
  let xBoost := spawnPoint.x * randFloat * booster completion
  let yBoost := spawnPoint.y * randFloat * booster completion
  ⟨getTransitionNumber rotPoint.x (rotPoint.x + xBoost) completion,
   getTransitionNumber rotPoint.y (rotPoint.y + yBoost) completion⟩

/-- The rotate move as the specification words it: blend per axis, by
`completion`, from the straight-line point toward the rotated-and-jittered
point.  Kept separate from `applyMoveFunctionRotate` for comparison. -/
def specRotateBlend (sinC cosC : ℚ) (fromPoint toPoint spawnPoint : Point)
    (randFloat completion : ℚ) : Point :=
  let betweenPoint := applyMoveFunctionLinear fromPoint toPoint completion
  let rotPoint := rotatePoint betweenPoint toPoint sinC cosC
  let xBoost := spawnPoint.x * randFloat * booster completion
  let yBoost := spawnPoint.y * randFloat * booster completion
  ⟨getTransitionNumber betweenPoint.x (rotPoint.x + xBoost) completion,
   getTransitionNumber betweenPoint.y (rotPoint.y + yBoost) completion⟩

/-- The `linear` property function: `getTransitionValue` applied to each key
of the configured default property bag. -/
def applyPropertyFunctionLinear (fromProperties toProperties : Properties)
    (completion : ℚ) : Properties :=
  ⟨getTransitionValueFill fromProperties.fill toProperties.fill completion,
   getTransitionNumber fromProperties.opacity toProperties.opacity completion,
   getTransitionNumber fromProperties.radius toProperties.radius completion⟩

/-- The `bubble` property function: the linear values with the radius
boosted by `booster * min(|booster*randFloat*toRadius|, toRadius*1.5)`. -/
def applyPropertyFunctionBubble (fromProperties toProperties : Properties)
    (completion randFloat : ℚ) : Properties :=
  let betweenValues := applyPropertyFunctionLinear fromProperties toProperties completion
  { betweenValues with
    radius := betweenValues.radius +
      booster completion *
        min |booster completion * randFloat * toProperties.radius|
          (toProperties.radius * (3/2)) }

/-- The `linear` timing function. -/
def applyTimingFunctionLinear (num : ℚ) : ℚ := num

/-- The `easeOut` timing function: `1 - (1 - num)^3`. -/
def applyTimingFunctionEaseOut (num : ℚ) : ℚ := 1 - (1 - num) ^ 3

/-- Merge of a partial property bag over a full one, as the object spread
`{...base, ...update}` does key by key. -/
def mergeProperties (base : Properties) (update : PartialProperties) : Properties :=
  ⟨update.fill.getD base.fill, update.opacity.getD base.opacity,
   update.radius.getD base.radius⟩

/-- Merge helper for an optional partial bag (an absent argument merges
nothing). -/
def mergePropertiesOpt (base : Properties) (update : Option PartialProperties) : Properties :=
  match update with
  | none => base
  | some u => mergeProperties base u

/-- Particle.updateTransitionData: field-by-field merge of a partial
transition-data object into the particle's record. -/
def updateTransitionData (p : Particle) (s : Sample) : Particle :=
  let td := p.transitionData
  { p with
    transitionData :=
      ⟨s.fromPoint.getD td.fromPoint,
       mergePropertiesOpt td.fromProperties s.fromProperties,
       s.toPoint.getD td.toPoint,
       mergePropertiesOpt td.toProperties s.toProperties⟩ }

/-- Particle.prepareFadeOut with a point argument: set the destination to
the given point with opacity and radius forced to 0. -/
def prepareFadeOut (p : Particle) (pt : Point) : Particle :=
  updateTransitionData p ⟨none, none, some pt, some ⟨none, some 0, some 0⟩⟩

/-- Particle.prepareFadeIn with a point argument: set the origin to the
given point with opacity and radius forced to 0. -/
def prepareFadeIn (p : Particle) (pt : Point) : Particle :=
  updateTransitionData p ⟨some pt, some ⟨none, some 0, some 0⟩, none, none⟩

/-- Construction of a Particle: point and properties start at the spawn
values, the transition record starts as spawn-to-spawn, and the constructor
ends with `prepareFadeIn(spawnPoint)`. -/
def mkParticle (id : ℕ) (spawnPoint : Point) (spawnProperties : Properties)
    (randFloat : ℚ) : Particle :=
  prepareFadeIn
    { id := id, point := spawnPoint, properties := spawnProperties,
      spawnPoint := spawnPoint, spawnProperties := spawnProperties,
      randFloat := randFloat,
      transitionData := ⟨spawnPoint, spawnProperties, spawnPoint, spawnProperties⟩ }
    spawnPoint

/-- Particle.setPropsToFramePosition with the linear move and linear
property functions configured: recompute `point` and `properties` from the
transition record at the given completion. -/
def setPropsToFramePosition (p : Particle) (completion : ℚ) : Particle :=
  { p with
    point := applyMoveFunctionLinear p.transitionData.fromPoint
      p.transitionData.toPoint completion,
    properties := applyPropertyFunctionLinear p.transitionData.fromProperties
      p.transitionData.toProperties completion }

/-- getRandomFloat(min, max) = `Math.random() * (max - min) + min`, with the
uniform draw `r` (the `Math.random()` result) passed in by the caller. -/
def randFloatModel (minV maxV r : ℚ) : ℚ := r * (maxV - minV) + minV

/-- The constrainRange helper of the particle-image.js getRandomPoint:
`Math.max(Math.min(val, max), min)`. -/
def constrainRange (val minV maxV : ℚ) : ℚ := max (min val maxV) minV

/-- Settings of the particle-image.js variant that the modelled operations
read. -/
structure Config where
  width : ℚ
  height : ℚ
  paddingX : ℚ
  paddingY : ℚ
  particleProperties : Properties
  particleShuffle : Bool

/-- getRandomPoint of src/particle-image.js.  `r1`, `r2` are the two
`Math.random()` draws.  A truthy `maxDistance` (a number other than 0)
selects the distance-constrained branch, where an invalid `fromPoint` is
silently replaced by the canvas centre; the function always returns a point
and never reports an error (second component). -/
def getRandomPointV1 (cfg : Config) (maxDistance : Option ℚ) (fromPoint : Option Point)
    (r1 r2 : ℚ) : Option Point × Bool :=
  match maxDistance with
  | some d =>
      if d = 0 then
        (some ⟨((round (randFloatModel 0 (cfg.width - cfg.paddingX) r1) : ℤ) : ℚ),
               ((round (randFloatModel 0 (cfg.height - cfg.paddingY) r2) : ℤ) : ℚ)⟩, false)
      else
        let fp := fromPoint.getD ⟨cfg.width / 2, cfg.height / 2⟩
        let x := fp.x + randFloatModel (-d) d r1
        let y := fp.y + randFloatModel (-d) d r2
        (some ⟨((round (constrainRange x 0 (cfg.width - cfg.paddingX)) : ℤ) : ℚ),
               ((round (constrainRange y 0 (cfg.height - cfg.paddingY)) : ℤ) : ℚ)⟩, false)
  | none =>
      (some ⟨((round (randFloatModel 0 (cfg.width - cfg.paddingX) r1) : ℤ) : ℚ),
             ((round (randFloatModel 0 (cfg.height - cfg.paddingY) r2) : ℤ) : ℚ)⟩, false)

/-- Canvas and animation settings of the src/unnamed/part_000 variant. -/
structure CanvasSettings where
  width : ℚ
  height : ℚ
  padTop : ℚ
  padRight : ℚ
  padBottom : ℚ
  padLeft : ℚ
  animationContain : Bool

/-- getRandomPoint of src/unnamed/part_000 (options object form).  When a
numeric `maxDistance` is supplied with an invalid `fromPoint`, the source
logs an error and returns `undefined`: modelled as `(none, true)`, the Bool
recording that the error channel was used. -/
def getRandomPointOptions (cfg : CanvasSettings) (maxDistance : Option ℚ)
    (fromPoint : Option Point) (containOpt : Option Bool) (r1 r2 : ℚ) :
    Option Point × Bool :=
  let contain := containOpt.getD cfg.animationContain
  let minX := if contain then cfg.padLeft else 0
  let minY := if contain then cfg.padTop else 0
  let maxX := if contain then cfg.width - cfg.padRight else cfg.width
  let maxY := if contain then cfg.height - cfg.padBottom else cfg.height
  match maxDistance with
  | some d =>
      match fromPoint with
      | none => (none, true)
      | some fp =>
          (some ⟨randFloatModel (max (fp.x - d) minX) (min (fp.x + d) maxX) r1,
                 randFloatModel (max (fp.y - d) minY) (min (fp.y + d) maxY) r2⟩, false)
  | none =>
      (some ⟨randFloatModel minX maxX r1, randFloatModel minY maxY r2⟩, false)

/-- getEvenlyDistributedSample.  The source destructively `shift()`s the
first and `pop()`s the last element off the argument array; the second
component of the result is the array as the caller sees it afterwards.
Out-of-range reads (`arr.pop()` on an empty array, `arr[i]` past the end)
produce `undefined`, modelled as `none`.  `interval` is the float division
`arr.length / samples` computed after the shift. -/
def getEvenlyDistributedSample {α : Type} (arr : List α) (samples : ℕ) :
    List (Option α) × List α :=
  let first := arr.head?
  let rest := arr.tail
  let interval : ℚ := (rest.length : ℚ) / (samples : ℚ)
  let middle := (List.range' 1 (samples - 2)).map fun (i : ℕ) =>
    rest.get? (Int.toNat (Int.floor ((i : ℚ) * interval)))
  (first :: middle ++ [rest.getLast?], rest.dropLast)

/-- The random inputs consumed by one reconciliation call, standing for the
substitutable Random Source: the spawn draws and move jitter of the k-th
newly created particle, the two draws of the k-th fade-out point, the
Fisher-Yates result, and the `Math.sin`/`Math.cos` values at `.25` used by
the fade-out rotation. -/
structure RandomOracle where
  spawnDraw : ℕ → ℚ × ℚ
  spawnRF : ℕ → ℚ
  fadeDraw : ℕ → ℚ × ℚ
  shuffleFn : List Sample → List Sample
  sin25 : ℚ
  cos25 : ℚ

/-- The spawn point of the k-th particle created by the growth loop:
`getRandomPoint()` with no arguments, i.e. both coordinates drawn over the
padded canvas and rounded. -/
def spawnPointOf (cfg : Config) (oracle : RandomOracle) (k : ℕ) : Point :=
  ⟨((round (randFloatModel 0 (cfg.width - cfg.paddingX) (oracle.spawnDraw k).1) : ℤ) : ℚ),
   ((round (randFloatModel 0 (cfg.height - cfg.paddingY) (oracle.spawnDraw k).2) : ℤ) : ℚ)⟩

/-- setParticleTransitions of src/particle-image.js.  Steps, in source
order: grow the pool while it is smaller than the target list (fresh ids
model the fresh object identities); pick `particlesToUse`, which in the
reduced branch destructively removes the first and last pool entries; then
walk the (possibly shrunk) pool, snapshotting `from` for non-new particles
and either assigning the next target or preparing a fade-out. -/
def setParticleTransitions (cfg : Config) (oracle : RandomOracle)
    (particles : List Particle) (transitionDataArr : List Sample) : List Particle :=
  let need := transitionDataArr.length - particles.length
  let baseId := (particles.map Particle.id).foldr max 0 + 1
  let newParticles := (List.range need).map fun k =>
    mkParticle (baseId + k) (spawnPointOf cfg oracle k) cfg.particleProperties
      (oracle.spawnRF k)
  let pool := particles ++ newParticles
  let newIds := newParticles.map Particle.id
  let reduced := transitionDataArr.length < pool.length
  let sampled := getEvenlyDistributedSample pool transitionDataArr.length
  let particlesToUse : List (Option Particle) :=
    if reduced then sampled.1 else pool.map some
  let poolAfter := if reduced then sampled.2 else pool
  let targets :=
    if cfg.particleShuffle then oracle.shuffleFn transitionDataArr
    else transitionDataArr
  let isUsed := fun (p : Particle) =>
    particlesToUse.any fun o => o.elim false fun q => q.id = p.id
  let step := fun (acc : List Particle × ℕ × ℕ) (particle : Particle) =>
    let p1 :=
      if newIds.contains particle.id then particle
      else
        { particle with
          transitionData :=
            { particle.transitionData with
              fromProperties := particle.properties,
              fromPoint := particle.point } }
    if isUsed p1 then
      let p2 := updateTransitionData p1
        ⟨none, none, none,
         some ⟨some cfg.particleProperties.fill, some cfg.particleProperties.opacity,
               some cfg.particleProperties.radius⟩⟩
      let p3 :=
        match targets.get? acc.2.1 with
        | some td => updateTransitionData p2 td
        | none => p2
      (acc.1 ++ [p3], acc.2.1 + 1, acc.2.2)
    else
      let draws := oracle.fadeDraw acc.2.2
      let rp := (getRandomPointV1 cfg (some 20) (some p1.point) draws.1 draws.2).1.getD ⟨0, 0⟩
      let fadePt := rotatePoint rp p1.spawnPoint oracle.sin25 oracle.cos25
      (acc.1 ++ [prepareFadeOut p1 fadePt], acc.2.1, acc.2.2 + 1)
  (poolAfter.foldl step ([], 0, 0)).1

/-- Decoded pixel data: width, height and the flat RGBA byte array, four
entries per pixel.  Out-of-range reads give `undefined`, which fails the
`> 128` alpha test exactly as the default value 0 does here. -/
structure ImageData where
  width : ℕ
  height : ℕ
  data : List ℕ

/-- The coordinates visited by `for (v = 0; v < limit; v += density)`. -/
def rasterStride (limit density : ℕ) : List ℕ :=
  (List.range ((limit + density - 1) / density)).map fun i => i * density

/-- Alpha byte of the pixel at `(x, y)`: `data[(x + y*width)*4 + 3]`. -/
def alphaAt (img : ImageData) (x y : ℕ) : ℕ :=
  img.data.getD ((x + y * img.width) * 4 + 3) 0

/-- getParticleDataFromImage of src/particle-image.js: outer loop on x,
inner on y, both striding by `density`; a sample is emitted for every pixel
whose alpha exceeds 128, with the pixel's color attached when
`includeColor` is set. -/
def getParticleDataFromImage (img : ImageData) (includeColor : Bool) (density : ℕ) :
    List Sample :=
  (rasterStride img.width density).flatMap fun x =>
    (rasterStride img.height density).filterMap fun y =>
      let position := (x + y * img.width) * 4
      if 128 < img.data.getD (position + 3) 0 then
        some
          ⟨none, none, some ⟨(x : ℚ), (y : ℚ)⟩,
           if includeColor then
             some ⟨some (rgbToHex (img.data.getD position 0)
               (img.data.getD (position + 1) 0) (img.data.getD (position + 2) 0)),
               none, none⟩
           else none⟩
      else none

/-- The stride-aligned coordinate pairs of an image in raster order (outer
loop x, inner loop y), the order the sampler documents. -/
def rasterPairs (img : ImageData) (density : ℕ) : List (ℕ × ℕ) :=
  (rasterStride img.width density).flatMap fun x =>
    (rasterStride img.height density).map fun y => (x, y)

/-- One run of the animate loop as a do-while on the frame counter: emit
`curFrame / frames`, increment, continue while `curFrame < frames`.  The
fuel argument is structural so concrete runs evaluate in the kernel; it is
always sufficient at `frames + 1`. -/
def animateLoopAux (frames : ℕ) : ℕ → ℕ → List ℚ
  | _, 0 => []
  | cur, fuel + 1 =>
      ((cur : ℚ) / (frames : ℚ)) ::
        (if cur + 1 < frames then animateLoopAux frames (cur + 1) fuel else [])

/-- The completion fractions handed to the timing function over one run of
`animate` with the given frame count. -/
def animateCompletions (frames : ℕ) : List ℚ := animateLoopAux frames 0 (frames + 1)

/-- Default settings of src/particle-image.js: 500x500 canvas, padding 100,
default property bag, with shuffling disabled as in the scenarios below. -/
def cfg0 : Config := ⟨500, 500, 100, 100, ⟨"#000000", 1, 4⟩, false⟩

/-- A concrete deterministic instantiation of the random source. -/
def oracle0 : RandomOracle :=
  ⟨fun _ => (0, 0), fun _ => 0, fun _ => (0, 0), id, 0, 1⟩

/-- A concrete pool of three particles at known positions. -/
def pool3 : List Particle :=
  [mkParticle 1 ⟨10, 20⟩ cfg0.particleProperties 0,
   mkParticle 2 ⟨30, 40⟩ cfg0.particleProperties 0,
   mkParticle 3 ⟨50, 60⟩ cfg0.particleProperties 0]

/-- A single target sample at (100, 200). -/
def target1 : Sample := ⟨none, none, some ⟨100, 200⟩, none⟩

/-- A 4x4 fully opaque image: 16 pixels, all four RGBA bytes 255. -/
def img44 : ImageData := ⟨4, 4, List.replicate 64 255⟩

/-- A particle whose fill is an uppercase hex color. -/
def particleUpper : Particle := mkParticle 7 ⟨1, 2⟩ ⟨"#FF0000", 1, 4⟩ 0

/-- A particle whose fill is already in canonical lowercase form. -/
def particleCanon : Particle := mkParticle 9 ⟨3, 4⟩ ⟨"#0a1b2c", 1, 4⟩ 0

/-- C4: the booster weight used by the move and property functions is
claimed to equal `1 - |1 - 2*completion|`, zero at both endpoints and 1 at
the midpoint.  The code's `1 - |.5*completion|*2` instead equals
`1 - completion` on `[0,1]`: it is 1 at completion 0, 1/2 at the midpoint
and 0 only at completion 1, contradicting the comment above it in the
source. -/
theorem booster_endpoint_value :
    booster 0 = 1 ∧ boosterSpec 0 = 0 ∧ booster 0 ≠ boosterSpec 0 ∧
      booster (1/2) = 1/2 ∧ boosterSpec (1/2) = 1 ∧ booster 1 = 0 := by
  refine ⟨?_, ?_, ?_, ?_, ?_, ?_⟩ <;>
    norm_num [booster, boosterSpec, abs_of_nonneg]

/-- C1: reconciliation is claimed never to shrink the pool
(`len(pool_after) ≥ max(len(pool_before), len(targets))`).  On a pool of
three particles and one target sample, `setParticleTransitions` returns a
pool of length 1: `getEvenlyDistributedSample` destructively `shift()`s and
`pop()`s the pool array it is asked to sample. -/
theorem pool_shrinks_on_reduce :
    (setParticleTransitions cfg0 oracle0 pool3 [target1]).length = 1 ∧
      pool3.length = 3 ∧
      ¬ max pool3.length [target1].length ≤
          (setParticleTransitions cfg0 oracle0 pool3 [target1]).length := by
  decide

/-- C2: with a pool of 3 particles and 1 target sample (shuffle disabled)
the claim says one particle receives the real target `to`, the other two
fade out, and none is removed.  In fact the first and last particles are
removed from the pool, the sole survivor fades out, and no pooled particle
receives the target point (100, 200). -/
theorem reconcile_three_to_one_scenario :
    (setParticleTransitions cfg0 oracle0 pool3 [target1]).length = 1 ∧
      (∀ p ∈ setParticleTransitions cfg0 oracle0 pool3 [target1],
        p.transitionData.toProperties.opacity = 0 ∧
        p.transitionData.toProperties.radius = 0 ∧
        p.transitionData.toPoint ≠ (⟨100, 200⟩ : Point)) ∧
      (setParticleTransitions cfg0 oracle0 pool3 [target1]).countP
        (fun p => p.transitionData.toPoint = (⟨100, 200⟩ : Point)) = 0 := by
  norm_num [setParticleTransitions, getEvenlyDistributedSample, mkParticle,
    prepareFadeIn, prepareFadeOut, updateTransitionData, mergePropertiesOpt,
    mergeProperties, spawnPointOf, getRandomPointV1, randFloatModel,
    constrainRange, rotatePoint, cfg0, oracle0, pool3, target1, round_eq,
    Point.mk.injEq]

/-- C3 counterexample: the reducer is claimed to return exactly `k` elements
for every `0 < k ≤ len(samples)`, but for `k = 1` it returns 2 elements
(the unconditional first and last pushes). -/
theorem reduce_k_one_length :
    0 < 1 ∧ 1 ≤ ([0, 1] : List ℕ).length ∧
      ((getEvenlyDistributedSample ([0, 1] : List ℕ) 1).1).length ≠ 1 := by
  decide

/-- C3 amended: for `2 ≤ k ≤ len(samples)` the reducer returns exactly `k`
elements, containing the first and the last element of the input (for
`k = 1` it still returns the first element, but as one of 2 elements). -/
theorem reduce_length_endpoints {α : Type} (arr : List α) (k : ℕ)
    (h2 : 2 ≤ k) (hk : k ≤ arr.length) :
    ((getEvenlyDistributedSample arr k).1).length = k ∧
      arr.head? ∈ (getEvenlyDistributedSample arr k).1 ∧
      arr.getLast? ∈ (getEvenlyDistributedSample arr k).1 := by
  obtain ⟨a, l, rfl⟩ : ∃ a l, arr = a :: l := by
    cases arr with
    | nil => simp at hk; omega
    | cons a l => exact ⟨a, l, rfl⟩
  obtain ⟨b, t, rfl⟩ : ∃ b t, l = b :: t := by
    cases l with
    | nil => simp at hk; omega
    | cons b t => exact ⟨b, t, rfl⟩
  refine ⟨?_, ?_, ?_⟩
  · simp only [getEvenlyDistributedSample, List.length_cons, List.length_append,
      List.length_map, List.length_range', List.length_nil]
    omega
  · simp [getEvenlyDistributedSample]
  · simp [getEvenlyDistributedSample, List.getLast?_cons_cons]

/-- Witness for the amended C3 theorem at `arr = [0,1,2,3]`, `k = 3`. -/
theorem reduce_length_endpoints_witness :
    2 ≤ 3 ∧ 3 ≤ ([0, 1, 2, 3] : List ℕ).length ∧
      ((getEvenlyDistributedSample ([0, 1, 2, 3] : List ℕ) 3).1).length = 3 ∧
      ([0, 1, 2, 3] : List ℕ).head? ∈
        (getEvenlyDistributedSample ([0, 1, 2, 3] : List ℕ) 3).1 ∧
      ([0, 1, 2, 3] : List ℕ).getLast? ∈
        (getEvenlyDistributedSample ([0, 1, 2, 3] : List ℕ) 3).1 :=
  ⟨by decide, by decide,
    (reduce_length_endpoints ([0, 1, 2, 3] : List ℕ) 3 (by decide) (by decide)).1,
    (reduce_length_endpoints ([0, 1, 2, 3] : List ℕ) 3 (by decide) (by decide)).2.1,
    (reduce_length_endpoints ([0, 1, 2, 3] : List ℕ) 3 (by decide) (by decide)).2.2⟩

/-- C5: the rotate move is claimed to blend, by completion, from the
straight-line point toward the rotated-and-jittered point.  Because
`rotatePoint` mutates `betweenPoint` in place, the blend's starting value
is already the rotated point: at completion 1/2, sine 4/5, cosine 3/5,
from (0,0) to (4,0), the code yields (14/5, -8/5) while the claimed blend
gives (12/5, -4/5).  The second half of the claim does hold: at
completion 1 the result is exactly the `to` point, for every input. -/
theorem rotate_blend_aliasing :
    applyMoveFunctionRotate (4/5) (3/5) ⟨0, 0⟩ ⟨4, 0⟩ ⟨0, 0⟩ 0 (1/2) =
        (⟨14/5, -8/5⟩ : Point) ∧
      specRotateBlend (4/5) (3/5) ⟨0, 0⟩ ⟨4, 0⟩ ⟨0, 0⟩ 0 (1/2) =
        (⟨12/5, -4/5⟩ : Point) ∧
      applyMoveFunctionRotate (4/5) (3/5) ⟨0, 0⟩ ⟨4, 0⟩ ⟨0, 0⟩ 0 (1/2) ≠
        specRotateBlend (4/5) (3/5) ⟨0, 0⟩ ⟨4, 0⟩ ⟨0, 0⟩ 0 (1/2) ∧
      ∀ (s c : ℚ) (fp tp sp : Point) (rf : ℚ),
        applyMoveFunctionRotate s c fp tp sp rf 1 = tp := by
  refine ⟨?_, ?_, ?_, ?_⟩
  · norm_num [applyMoveFunctionRotate, applyMoveFunctionLinear, rotatePoint,
      getTransitionNumber, booster, Point.mk.injEq, abs_of_nonneg]
  · norm_num [specRotateBlend, applyMoveFunctionLinear, rotatePoint,
      getTransitionNumber, booster, Point.mk.injEq, abs_of_nonneg]
  · norm_num [applyMoveFunctionRotate, specRotateBlend, applyMoveFunctionLinear,
      rotatePoint, getTransitionNumber, booster, Point.mk.injEq, abs_of_nonneg]
  · intro s c fp tp sp rf
    have hb : booster 1 = 0 := by norm_num [booster, abs_of_nonneg]
    obtain ⟨tx, ty⟩ := tp
    simp [applyMoveFunctionRotate, applyMoveFunctionLinear, rotatePoint,
      getTransitionNumber, hb, Point.mk.injEq]

/-- Color interpolation at completion 0 re-encodes the `from` color's
parsed channels: each channel is the ceiling of `from*(1-0)`. -/
theorem getTransitionColor_zero (f t : String) :
    getTransitionColor f t 0 = normalizeHexColor f := by
  simp only [getTransitionColor, normalizeHexColor, mul_zero, zero_add,
    sub_zero, mul_one, Int.ceil_natCast]

/-- Color interpolation at completion 1 re-encodes the `to` color's parsed
channels. -/
theorem getTransitionColor_one (f t : String) :
    getTransitionColor f t 1 = normalizeHexColor t := by
  simp only [getTransitionColor, normalizeHexColor, sub_self, mul_zero,
    add_zero, mul_one, Int.ceil_natCast]

/-- C6 counterexample: a transition record whose fill is the (valid,
fully-defined) uppercase color "#FF0000" resolves at completion 0 to fill
"#ff0000": the color interpolation re-encodes channels in lowercase, so the
result is not exactly `fromProperties`. -/
theorem resolve_zero_fill_case :
    (setPropsToFramePosition particleUpper 0).properties ≠
      particleUpper.transitionData.fromProperties := by
  have hgc : getTransitionColor "#FF0000" "#FF0000" 0 = "#ff0000" := by
    rw [getTransitionColor_zero]
    decide
  have hx : (isHexColor "#FF0000" && isHexColor "#FF0000") = true := by decide
  have hf : (setPropsToFramePosition particleUpper 0).properties.fill = "#ff0000" := by
    simp only [setPropsToFramePosition, applyPropertyFunctionLinear, particleUpper,
      mkParticle, prepareFadeIn, updateTransitionData, mergePropertiesOpt,
      mergeProperties, getTransitionValueFill, hx, if_true, Option.getD_some,
      Option.getD_none]
    exact hgc
  intro h
  rw [h] at hf
  exact absurd hf (by decide)

/-- C9 counterexample: in the particle-image.js variant, a distance-
constrained request with an invalid `fromPoint` does not fail: the invalid
reference is silently replaced by the canvas centre and a point (here
(230, 230)) is returned with no error reported. -/
theorem random_point_v1_fallback :
    (getRandomPointV1 cfg0 (some 20) none 0 0).1 = some ⟨230, 230⟩ ∧
      (getRandomPointV1 cfg0 (some 20) none 0 0).2 = false := by
  norm_num [getRandomPointV1, randFloatModel, constrainRange, cfg0, round_eq,
    Point.mk.injEq]

/-- C9 amended: in the options-object variant (src/unnamed/part_000), a
numeric `maxDistance` together with an invalid `fromPoint` reports an error
and yields no point, for every configuration and every random draw. -/
theorem random_point_options_invalid_from (cfg : CanvasSettings) (d : ℚ)
    (containOpt : Option Bool) (r1 r2 : ℚ) :
    getRandomPointOptions cfg (some d) none containOpt r1 r2 = (none, true) := rfl

/-- Unfolding of one run of the animate loop into the list of visited
frame fractions. -/
theorem animateLoopAux_eq (frames : ℕ) :
    ∀ fuel cur, cur < frames → frames - cur ≤ fuel →
      animateLoopAux frames cur fuel =
        (List.range' cur (frames - cur)).map fun (i : ℕ) => (i : ℚ) / (frames : ℚ) := by
  intro fuel
  induction fuel with
  | zero => intro cur h1 h2; omega
  | succ n ih =>
      intro cur h1 h2
      simp only [animateLoopAux]
      by_cases h : cur + 1 < frames
      · rw [if_pos h, ih (cur + 1) h (by omega)]
        have hfc : frames - cur = (frames - (cur + 1)) + 1 := by omega
        rw [hfc, List.range'_succ]
        simp
      · rw [if_neg h]
        have hfc : frames - cur = 1 := by omega
        rw [hfc]
        simp

/-- C10: over one run of `animate` with `frames = N ≥ 1`, the completion
fraction passed to the timing function takes exactly the values `i/N` for
`i = 0 .. N-1`, in order, each strictly below 1; the eased `easeOut`
fraction also stays below 1, so a particle whose endpoints differ is never
drawn exactly at its `to` value within the run. -/
theorem animate_completions_frames (frames : ℕ) (h : 1 ≤ frames) :
    animateCompletions frames =
        ((List.range frames).map fun (i : ℕ) => (i : ℚ) / (frames : ℚ)) ∧
      (∀ q ∈ animateCompletions frames, q < 1 ∧ applyTimingFunctionEaseOut q < 1) ∧
      (∀ q ∈ animateCompletions frames, ∀ a b : ℚ, a ≠ b →
        getTransitionNumber a b (applyTimingFunctionEaseOut q) ≠ b) := by
  have hmain : animateCompletions frames =
      ((List.range frames).map fun (i : ℕ) => (i : ℚ) / (frames : ℚ)) := by
    rw [animateCompletions, animateLoopAux_eq frames (frames + 1) 0 (by omega) (by omega)]
    rw [Nat.sub_zero, List.range_eq_range']
  have hpos : (0 : ℚ) < (frames : ℚ) := by
    have : (0 : ℕ) < frames := by omega
    exact_mod_cast this
  have hlt : ∀ q ∈ animateCompletions frames, q < 1 := by
    rw [hmain]
    intro q hq
    simp only [List.mem_map, List.mem_range] at hq
    obtain ⟨i, hi, rfl⟩ := hq
    rw [div_lt_one hpos]
    exact_mod_cast hi
  have hease : ∀ q ∈ animateCompletions frames, applyTimingFunctionEaseOut q < 1 := by
    intro q hq
    have h1 := hlt q hq
    have h2 : (0 : ℚ) < (1 - q) ^ 3 := pow_pos (by linarith) 3
    rw [applyTimingFunctionEaseOut]
    linarith
  refine ⟨hmain, fun q hq => ⟨hlt q hq, hease q hq⟩, ?_⟩
  intro q hq a b hab heq
  have hp : applyTimingFunctionEaseOut q < 1 := hease q hq
  rw [getTransitionNumber] at heq
  have h3 : (b - a) * applyTimingFunctionEaseOut q = b - a := by linarith
  have key : (b - a) * (1 - applyTimingFunctionEaseOut q) = 0 := by
    calc (b - a) * (1 - applyTimingFunctionEaseOut q)
        = (b - a) - (b - a) * applyTimingFunctionEaseOut q := by ring
      _ = 0 := by rw [h3]; ring
  rcases mul_eq_zero.mp key with h4 | h4
  · exact hab (by linarith)
  · linarith

/-- Witness for C10 at `frames = 2`. -/
theorem animate_completions_frames_witness :
    1 ≤ 2 ∧ animateCompletions 2 =
      ((List.range 2).map fun (i : ℕ) => (i : ℚ) / ((2 : ℕ) : ℚ)) :=
  ⟨by decide, (animate_completions_frames 2 (by decide)).1⟩

/-- The linear move function at completion 0 returns the `from` point. -/
theorem applyMoveFunctionLinear_zero (a b : Point) :
    applyMoveFunctionLinear a b 0 = a := by
  obtain ⟨x1, y1⟩ := a
  simp only [applyMoveFunctionLinear, getTransitionNumber, Point.mk.injEq]
  constructor <;> ring

/-- The linear move function at completion 1 returns the `to` point. -/
theorem applyMoveFunctionLinear_one (a b : Point) :
    applyMoveFunctionLinear a b 1 = b := by
  obtain ⟨x2, y2⟩ := b
  simp only [applyMoveFunctionLinear, getTransitionNumber, Point.mk.injEq]
  constructor <;> ring

/-- The linear property function at completion 0 returns the `from` bag,
provided both fills are hex colors and the `from` fill is already in
canonical form. -/
theorem applyPropertyFunctionLinear_zero (a b : Properties)
    (ha : isHexColor a.fill = true) (hb2 : isHexColor b.fill = true)
    (hn : normalizeHexColor a.fill = a.fill) :
    applyPropertyFunctionLinear a b 0 = a := by
  have hfill : getTransitionValueFill a.fill b.fill 0 = a.fill := by
    rw [getTransitionValueFill, if_pos (by rw [ha, hb2]; rfl), getTransitionColor_zero, hn]
  obtain ⟨f1, o1, r1⟩ := a
  simp only [applyPropertyFunctionLinear, getTransitionNumber, Properties.mk.injEq]
  exact ⟨hfill, by ring, by ring⟩

/-- The linear property function at completion 1 returns the `to` bag,
provided both fills are hex colors and the `to` fill is already in
canonical form. -/
theorem applyPropertyFunctionLinear_one (a b : Properties)
    (ha : isHexColor a.fill = true) (hb2 : isHexColor b.fill = true)
    (hn : normalizeHexColor b.fill = b.fill) :
    applyPropertyFunctionLinear a b 1 = b := by
  have hfill : getTransitionValueFill a.fill b.fill 1 = b.fill := by
    rw [getTransitionValueFill, if_pos (by rw [ha, hb2]; rfl), getTransitionColor_one, hn]
  obtain ⟨f2, o2, r2⟩ := b
  simp only [applyPropertyFunctionLinear, getTransitionNumber, Properties.mk.injEq]
  exact ⟨hfill, by ring, by ring⟩

/-- C6 amended: with the linear move and property functions, resolving at
completion 0 yields exactly `fromPoint`/`fromProperties` and at completion
1 exactly `toPoint`/`toProperties`, for every particle whose record has
valid hex fills in the canonical lowercase zero-padded form (the form the
library itself produces); for other casings the fill comes back
lowercase-normalized, see the counterexample. -/
theorem resolve_endpoints_linear (p : Particle)
    (hf : isHexColor p.transitionData.fromProperties.fill = true)
    (ht : isHexColor p.transitionData.toProperties.fill = true)
    (hnf : normalizeHexColor p.transitionData.fromProperties.fill =
      p.transitionData.fromProperties.fill)
    (hnt : normalizeHexColor p.transitionData.toProperties.fill =
      p.transitionData.toProperties.fill) :
    (setPropsToFramePosition p 0).point = p.transitionData.fromPoint ∧
      (setPropsToFramePosition p 0).properties = p.transitionData.fromProperties ∧
      (setPropsToFramePosition p 1).point = p.transitionData.toPoint ∧
      (setPropsToFramePosition p 1).properties = p.transitionData.toProperties :=
  ⟨applyMoveFunctionLinear_zero _ _,
   applyPropertyFunctionLinear_zero _ _ hf ht hnf,
   applyMoveFunctionLinear_one _ _,
   applyPropertyFunctionLinear_one _ _ hf ht hnt⟩

/-- Witness for the amended C6 theorem at a particle with canonical fills. -/
theorem resolve_endpoints_linear_witness :
    isHexColor particleCanon.transitionData.fromProperties.fill = true ∧
      isHexColor particleCanon.transitionData.toProperties.fill = true ∧
      (setPropsToFramePosition particleCanon 0).properties =
        particleCanon.transitionData.fromProperties ∧
      (setPropsToFramePosition particleCanon 1).properties =
        particleCanon.transitionData.toProperties :=
  ⟨by decide, by decide,
    (resolve_endpoints_linear particleCanon (by decide) (by decide) (by decide)
      (by decide)).2.1,
    (resolve_endpoints_linear particleCanon (by decide) (by decide) (by decide)
      (by decide)).2.2.2⟩

/-- One sampled column: the filterMap over y of the alpha-guarded emission
equals filtering the y values by the alpha test and mapping to samples. -/
theorem sampler_column (img : ImageData) (x : ℕ) (ys : List ℕ) :
    (ys.filterMap fun y =>
        if 128 < img.data.getD ((x + y * img.width) * 4 + 3) 0 then
          some (⟨none, none, some ⟨(x : ℚ), (y : ℚ)⟩, none⟩ : Sample)
        else none) =
      ((ys.filter fun y => decide (128 < alphaAt img x y)).map
        fun (y : ℕ) => (⟨none, none, some ⟨(x : ℚ), (y : ℚ)⟩, none⟩ : Sample)) := by
  induction ys with
  | nil => rfl
  | cons y t ih =>
      by_cases h : 128 < img.data.getD ((x + y * img.width) * 4 + 3) 0
      · have hsome : (fun (z : ℕ) =>
            if 128 < img.data.getD ((x + z * img.width) * 4 + 3) 0 then
              some (⟨none, none, some ⟨(x : ℚ), (z : ℚ)⟩, none⟩ : Sample)
            else none) y =
            some (⟨none, none, some ⟨(x : ℚ), (y : ℚ)⟩, none⟩ : Sample) := by
          simp only [if_pos h]
        rw [@List.filterMap_cons_some ℕ Sample
            (fun (z : ℕ) =>
              if 128 < img.data.getD ((x + z * img.width) * 4 + 3) 0 then
                some (⟨none, none, some ⟨(x : ℚ), (z : ℚ)⟩, none⟩ : Sample)
              else none)
            y t (⟨none, none, some ⟨(x : ℚ), (y : ℚ)⟩, none⟩ : Sample) hsome,
          List.filter_cons,
          if_pos (decide_eq_true (show 128 < alphaAt img x y from h)),
          List.map_cons, ih]
      · have hnone : (fun (z : ℕ) =>
            if 128 < img.data.getD ((x + z * img.width) * 4 + 3) 0 then
              some (⟨none, none, some ⟨(x : ℚ), (z : ℚ)⟩, none⟩ : Sample)
            else none) y = none := by
          simp only [if_neg h]
        rw [@List.filterMap_cons_none ℕ Sample
            (fun (z : ℕ) =>
              if 128 < img.data.getD ((x + z * img.width) * 4 + 3) 0 then
                some (⟨none, none, some ⟨(x : ℚ), (z : ℚ)⟩, none⟩ : Sample)
              else none)
            y t hnone,
          List.filter_cons,
          if_neg (by simpa [alphaAt, not_lt, List.getD_eq_getElem?_getD] using h), ih]

/-- C8: with color disabled, the sampler emits exactly one sample for each
stride-aligned pixel whose alpha strictly exceeds 128, in raster order
(outer loop x, inner loop y); over the 4x4 fully opaque image at density 2
it yields the four samples (0,0), (0,2), (2,0), (2,2) in that order. -/
theorem sampler_raster_characterization :
    (∀ (img : ImageData) (d : ℕ), 1 ≤ d →
      getParticleDataFromImage img false d =
        ((rasterPairs img d).filter fun pr =>
            decide (128 < alphaAt img pr.1 pr.2)).map
          fun (pr : ℕ × ℕ) =>
            (⟨none, none, some ⟨(pr.1 : ℚ), (pr.2 : ℚ)⟩, none⟩ : Sample)) ∧
      getParticleDataFromImage img44 false 2 =
        [⟨none, none, some ⟨0, 0⟩, none⟩, ⟨none, none, some ⟨0, 2⟩, none⟩,
         ⟨none, none, some ⟨2, 0⟩, none⟩, ⟨none, none, some ⟨2, 2⟩, none⟩] := by
  constructor
  · intro img d hd
    rw [getParticleDataFromImage, rasterPairs, List.filter_flatMap, List.map_flatMap]
    refine congrArg _ (funext fun x => ?_)
    rw [List.filter_map]
    simp only [if_neg Bool.false_ne_true]
    rw [sampler_column img x (rasterStride img.height d)]
    simp [Function.comp_def]
  · decide

/-- Witness for the general C8 characterization at the 4x4 image, density 2. -/
theorem sampler_raster_witness :
    getParticleDataFromImage img44 false 2 =
      ((rasterPairs img44 2).filter fun pr =>
          decide (128 < alphaAt img44 pr.1 pr.2)).map
        fun (pr : ℕ × ℕ) =>
          (⟨none, none, some ⟨(pr.1 : ℚ), (pr.2 : ℚ)⟩, none⟩ : Sample) :=
  sampler_raster_characterization.1 img44 2 (by decide)

/-- Every character parses to a hexadecimal digit value at most 15. -/
theorem hexDigitVal_le (ch : Char) : hexDigitVal ch ≤ 15 := by
  rw [hexDigitVal]
  split_ifs <;> omega

/-- Every two-character pair parses to a byte value. -/
theorem parseHexPair_le (c1 c2 : Char) : parseHexPair c1 c2 ≤ 255 := by
  have h1 := hexDigitVal_le c1
  have h2 := hexDigitVal_le c2
  rw [parseHexPair]
  omega

/-- All three parsed channels of any string are byte values. -/
theorem colorChannels_le (s : String) :
    (colorChannels s).1 ≤ 255 ∧ (colorChannels s).2.1 ≤ 255 ∧
      (colorChannels s).2.2 ≤ 255 :=
  ⟨parseHexPair_le _ _, parseHexPair_le _ _, parseHexPair_le _ _⟩

/-- For every byte value, the padded hex rendering has exactly two
characters, both hexadecimal digits, and parses back to the value. -/
theorem hexPadN_spec : ∀ n : ℕ, n < 256 →
    (hexPadN n).data.length = 2 ∧ (hexPadN n).data.all isHexDigitCharB = true ∧
      parseHexPair ((hexPadN n).data.getD 0 ' ') ((hexPadN n).data.getD 1 ' ') = n := by
  decide

/-- The ceiling of a convex blend of two byte values is a byte value. -/
theorem ceil_blend_bounds (a b : ℕ) (ha : a ≤ 255) (hb : b ≤ 255) (c : ℚ)
    (h0 : 0 ≤ c) (h1 : c ≤ 1) :
    0 ≤ Int.ceil ((b : ℚ) * c + (a : ℚ) * (1 - c)) ∧
      Int.ceil ((b : ℚ) * c + (a : ℚ) * (1 - c)) ≤ 255 := by
  have ha2 : (a : ℚ) ≤ 255 := by exact_mod_cast ha
  have hb2 : (b : ℚ) ≤ 255 := by exact_mod_cast hb
  have hc1 : (0 : ℚ) ≤ 1 - c := by linarith
  have hx0 : (0 : ℚ) ≤ (b : ℚ) * c + (a : ℚ) * (1 - c) :=
    add_nonneg (mul_nonneg (Nat.cast_nonneg b) h0) (mul_nonneg (Nat.cast_nonneg a) hc1)
  have hx255 : (b : ℚ) * c + (a : ℚ) * (1 - c) ≤ 255 := by nlinarith
  refine ⟨Int.ceil_nonneg hx0, Int.ceil_le.mpr ?_⟩
  push_cast
  exact hx255

/-- On a nonnegative channel the `hex` helper takes the natural branch. -/
theorem hexStr_nonneg (r : ℤ) (h : 0 ≤ r) : hexStr r = hexPadN r.toNat := by
  rw [hexStr, if_neg (by omega)]

/-- Appending strings concatenates their character data. -/
theorem string_data_append (s t : String) : (s ++ t).data = s.data ++ t.data := by
  cases s
  cases t
  rfl

/-- The hex-color test on a string whose data starts with a hash. -/
theorem isHexColor_mk (rest : List Char) :
    isHexColor (String.mk ('#' :: rest)) =
      (rest.length == 6 && rest.all isHexDigitCharB) := rfl

/-- Channel parse of a string whose data is a hash and six characters. -/
theorem colorChannels_mk (c1 c2 c3 c4 c5 c6 : Char) (tail : List Char) :
    colorChannels (String.mk ('#' :: c1 :: c2 :: c3 :: c4 :: c5 :: c6 :: tail)) =
      (parseHexPair c1 c2, parseHexPair c3 c4, parseHexPair c5 c6) := rfl

/-- C7: given two valid 6-hex-digit colors and completion in [0,1], the
color interpolation is channel-independent — each output channel parses
back to the ceiling-rounded linear blend of the corresponding input
channels — and the output is always a valid zero-padded 6-hex-digit color
string. -/
theorem transition_color_valid_channels (f t : String) (c : ℚ)
    (hf : isHexColor f = true) (ht : isHexColor t = true)
    (h0 : 0 ≤ c) (h1 : c ≤ 1) :
    isHexColor (getTransitionColor f t c) = true ∧
      colorChannels (getTransitionColor f t c) =
        (ceilBlend (colorChannels f).1 (colorChannels t).1 c,
         ceilBlend (colorChannels f).2.1 (colorChannels t).2.1 c,
         ceilBlend (colorChannels f).2.2 (colorChannels t).2.2 c) := by
  obtain ⟨hr0, hr255⟩ := ceil_blend_bounds (colorChannels f).1 (colorChannels t).1
    (colorChannels_le f).1 (colorChannels_le t).1 c h0 h1
  obtain ⟨hg0, hg255⟩ := ceil_blend_bounds (colorChannels f).2.1 (colorChannels t).2.1
    (colorChannels_le f).2.1 (colorChannels_le t).2.1 c h0 h1
  obtain ⟨hb0, hb255⟩ := ceil_blend_bounds (colorChannels f).2.2 (colorChannels t).2.2
    (colorChannels_le f).2.2 (colorChannels_le t).2.2 c h0 h1
  set rn := (Int.ceil (((colorChannels t).1 : ℚ) * c +
    ((colorChannels f).1 : ℚ) * (1 - c))).toNat with hrn
  set gn := (Int.ceil (((colorChannels t).2.1 : ℚ) * c +
    ((colorChannels f).2.1 : ℚ) * (1 - c))).toNat with hgn
  set bn := (Int.ceil (((colorChannels t).2.2 : ℚ) * c +
    ((colorChannels f).2.2 : ℚ) * (1 - c))).toNat with hbn
  have hform : (getTransitionColor f t c).data =
      '#' :: ((hexPadN rn).data ++ ((hexPadN gn).data ++ (hexPadN bn).data)) := by
    simp only [getTransitionColor]
    rw [hexStr_nonneg _ hr0, hexStr_nonneg _ hg0, hexStr_nonneg _ hb0]
    rw [string_data_append, string_data_append, string_data_append]
    rfl
  obtain ⟨hL1, hA1, hP1⟩ := hexPadN_spec rn (by omega)
  obtain ⟨hL2, hA2, hP2⟩ := hexPadN_spec gn (by omega)
  obtain ⟨hL3, hA3, hP3⟩ := hexPadN_spec bn (by omega)
  obtain ⟨a1, b1, he1⟩ := List.length_eq_two.mp hL1
  obtain ⟨a2, b2, he2⟩ := List.length_eq_two.mp hL2
  obtain ⟨a3, b3, he3⟩ := List.length_eq_two.mp hL3
  rw [he1] at hA1 hP1
  rw [he2] at hA2 hP2
  rw [he3] at hA3 hP3
  rw [he1, he2, he3] at hform
  have hstr : getTransitionColor f t c =
      String.mk ('#' :: a1 :: b1 :: a2 :: b2 :: a3 :: b3 :: []) := by
    apply String.ext
    rw [hform]
    rfl
  simp only [List.getD_cons_zero, List.getD_cons_succ] at hP1 hP2 hP3
  simp only [List.all_cons, List.all_nil, Bool.and_eq_true, Bool.and_true] at hA1 hA2 hA3
  constructor
  · rw [hstr, isHexColor_mk]
    simp only [List.length_cons, List.length_nil, List.all_cons, List.all_nil,
      Bool.and_eq_true, Bool.and_true]
    exact ⟨rfl, hA1.1, hA1.2, hA2.1, hA2.2, hA3.1, hA3.2⟩
  · rw [hstr, colorChannels_mk, hP1, hP2, hP3]
    simp only [ceilBlend]

/-- Witness for C7 at "#000000" to "#0080ff", completion 1/2. -/
theorem transition_color_valid_channels_witness :
    isHexColor "#000000" = true ∧ isHexColor "#0080ff" = true ∧
      (0 : ℚ) ≤ 1/2 ∧ (1/2 : ℚ) ≤ 1 ∧
      isHexColor (getTransitionColor "#000000" "#0080ff" (1/2)) = true ∧
      colorChannels (getTransitionColor "#000000" "#0080ff" (1/2)) =
        (ceilBlend (colorChannels "#000000").1 (colorChannels "#0080ff").1 (1/2),
         ceilBlend (colorChannels "#000000").2.1 (colorChannels "#0080ff").2.1 (1/2),
         ceilBlend (colorChannels "#000000").2.2 (colorChannels "#0080ff").2.2 (1/2)) :=
  ⟨by decide, by decide, by norm_num, by norm_num,
    (transition_color_valid_channels "#000000" "#0080ff" (1/2) (by decide) (by decide)
      (by norm_num) (by norm_num)).1,
    (transition_color_valid_channels "#000000" "#0080ff" (1/2) (by decide) (by decide)
      (by norm_num) (by norm_num)).2⟩
